import Mathlib

/-!
Verification of the momentum-conservation physics-loss module
(`model/physics_constraints.py`).

Embedding conventions:
* A 3-vector of floats is `Vec3 := ℚ × ℚ × ℚ`; real arithmetic is modelled
  exactly over the rationals, so float-rounding caveats of the spec vanish.
* A `(rows, 3)` tensor is a `List Vec3`; a `(batch, n_nodes, 3)` tensor is a
  `List (List Vec3)`.
* `masses` is `Option (List ℚ)`, one scalar per particle, absent = unit mass.
  A masses array whose length disagrees with the particle axis is undefined
  behaviour of the underlying library (spec section 4.1), so theorems about
  mass-weighted calls carry the well-formedness hypothesis `MassesOk`.
* `torch.Tensor.view`, which raises on an element-count mismatch, is modelled
  with `Except ErrorKind`; the single failure class is `ShapeMismatch`
  (spec section 7).
-/

/-- A 3-dimensional vector of rationals, standing for one row of a `(·, 3)`
float tensor.  Componentwise `+`, `-`, `0` come from the product instances. -/
abbrev Vec3 : Type := ℚ × ℚ × ℚ

/-- Scalar multiplication of a mass against a velocity row: the broadcast
`vel * masses.unsqueeze(-1)` acts on one row as multiplication of every
spatial component by that particle's mass. -/
def smulV (m : ℚ) (v : Vec3) : Vec3 := (m * v.1, m * v.2.1, m * v.2.2)

/-- Row reduction `(x ** 2).sum(dim=-1)`: the sum of squared components. -/
def sumSq (v : Vec3) : ℚ := v.1 ^ 2 + v.2.1 ^ 2 + v.2.2 ^ 2

/-- Reduction `t.mean()` over a 1-axis tensor: sum divided by length. -/
def listMean (l : List ℚ) : ℚ := l.sum / l.length

/-- The sole failure class of the module (spec section 7): a reshape or
broadcast over inconsistent shapes. -/
inductive ErrorKind : Type where
  | ShapeMismatch : ErrorKind
deriving DecidableEq, Repr

/-- Well-formedness of an optional masses array against a particle axis of
length `n`: absent, or exactly one scalar per particle.  Outside this domain
the source's broadcast is undefined behaviour (spec section 4.1). -/
def MassesOk (masses : Option (List ℚ)) (n : ℕ) : Prop :=
  ∀ ms ∈ masses, ms.length = n

/-- The `vel.dim() == 3` branch of `compute_linear_momentum`:
`(vel * masses.unsqueeze(-1)).sum(dim=1)` (resp. `vel.sum(dim=1)`), one
momentum 3-vector per batch sample.  The spec's design notes (section 9)
call this entry point `momentum_grouped`. -/
def compute_linear_momentum_dim3 (vel : List (List Vec3))
    (masses : Option (List ℚ)) : List Vec3 :=
  match masses with
  | some ms => vel.map (fun sample => (List.zipWith smulV ms sample).sum)
  | none => vel.map (fun sample => sample.sum)

/-- The `vel.dim() == 2` branch of `compute_linear_momentum`:
`(vel * masses.unsqueeze(-1)).sum(dim=0)` (resp. `vel.sum(dim=0)`), one
momentum 3-vector for the whole input.  The spec's design notes (section 9)
call this entry point `momentum_flat_single_sample`. -/
def compute_linear_momentum_dim2 (vel : List Vec3)
    (masses : Option (List ℚ)) : Vec3 :=
  match masses with
  | some ms => (List.zipWith smulV ms vel).sum
  | none => vel.sum

/-- Split a flat row list into `b` consecutive groups of `n` rows: the pure
content of `vel.view(batch_size, n_nodes, 3)` once the element count is
known to match. -/
def chunkExact (b n : ℕ) (xs : List Vec3) : List (List Vec3) :=
  match b with
  | 0 => []
  | Nat.succ b => xs.take n :: chunkExact b n (xs.drop n)

/-- Reshape `vel.view(batch_size, n_nodes, 3)`: succeeds exactly when the flat row
count equals `batch_size * n_nodes`, otherwise raises the shape error. -/
def view3 (b n : ℕ) (vel : List Vec3) :
    Except ErrorKind (List (List Vec3)) :=
  if vel.length = b * n then .ok (chunkExact b n vel)
  else .error .ShapeMismatch

/-- Source function `compute_linear_momentum_batched(vel, n_nodes, batch_size, masses)`:
reshape the flat `(batch_size * n_nodes, 3)` array to
`(batch_size, n_nodes, 3)` and delegate to `compute_linear_momentum`
(3-axis branch). -/
def compute_linear_momentum_batched (vel : List Vec3) (n_nodes batch_size : ℕ)
    (masses : Option (List ℚ)) : Except ErrorKind (List Vec3) :=
  (view3 batch_size n_nodes vel).map
    (fun vel_batched => compute_linear_momentum_dim3 vel_batched masses)

/-- Source function `momentum_conservation_loss(vel_init, vel_pred, n_nodes,
batch_size, masses)`: per-sample squared momentum deviation, normalized by the clamped
initial-momentum magnitude, averaged over the batch. -/
def momentum_conservation_loss (vel_init vel_pred : List Vec3)
    (n_nodes batch_size : ℕ) (masses : Option (List ℚ)) :
    Except ErrorKind ℚ := do
  let P_init ← compute_linear_momentum_batched vel_init n_nodes batch_size masses
  let P_pred ← compute_linear_momentum_batched vel_pred n_nodes batch_size masses
  let loss := List.zipWith (fun pi pp => sumSq (pp - pi)) P_init P_pred
  let P_init_norm := P_init.map (fun p => max (sumSq p) (1 / 1000000))
  return listMean (List.zipWith (fun l m => l / m) loss P_init_norm)

/-- State of the `PhysicsInformedLoss` wrapper.  `current_epoch` is a
rational because `set_epoch` performs no validation and Python's `/` is true
division. -/
structure PhysicsInformedLoss : Type where
  lambda_momentum : ℚ
  warmup_epochs : ℚ
  max_physics_loss : ℚ
  current_epoch : ℚ
deriving DecidableEq, Repr

/-- Method `set_epoch(epoch)`: overwrite `current_epoch`, no validation. -/
def PhysicsInformedLoss.set_epoch (self : PhysicsInformedLoss) (epoch : ℚ) :
    PhysicsInformedLoss :=
  { self with current_epoch := epoch }

/-- Method `get_warmup_factor()`: `1.0` when warmup is disabled, otherwise
`min(1.0, current_epoch / warmup_epochs)`. -/
def PhysicsInformedLoss.get_warmup_factor (self : PhysicsInformedLoss) : ℚ :=
  if self.warmup_epochs ≤ 0 then 1
  else min 1 (self.current_epoch / self.warmup_epochs)

/-- Method `compute_physics_losses(...)`: the combined entry point.  Returns the
differentiable total together with the logging breakdown, modelled as an
association list in the source's insertion order.  In the active branch the
Python total is `0.0 + lambda * clamped * warmup`, written here as the bare
product; `torch.clamp(x, max=c)` is `min x c`. -/
def PhysicsInformedLoss.compute_physics_losses (self : PhysicsInformedLoss)
    (vel_init vel_pred : List Vec3) (n_nodes batch_size : ℕ)
    (masses : Option (List ℚ)) :
    Except ErrorKind (ℚ × List (String × ℚ)) :=
  let warmup_factor := self.get_warmup_factor
  if 0 < self.lambda_momentum then
    match momentum_conservation_loss vel_init vel_pred n_nodes batch_size masses with
    | .error e => .error e
    | .ok momentum_loss =>
      let momentum_loss_clamped :=
        min momentum_loss
          (self.max_physics_loss / max self.lambda_momentum (1 / 1000000))
      let total_physics_loss :=
        self.lambda_momentum * momentum_loss_clamped * warmup_factor
      .ok (total_physics_loss,
        [("momentum", momentum_loss),
         ("momentum_clamped", momentum_loss_clamped),
         ("total_physics", total_physics_loss),
         ("warmup_factor", warmup_factor)])
  else
    .ok (0, [("total_physics", 0), ("warmup_factor", warmup_factor)])

/-- The loss exactly as the specification words it (claim-side definition for
the formula claim): mean over the batch of `sum((P_pred - P_init)^2)` divided
per sample by `max(sum(P_init^2), 1e-6)`, where `P` is the per-sample
(mass-weighted) momentum sum. -/
def momentum_conservation_loss_spec (vel_init vel_pred : List Vec3)
    (n_nodes batch_size : ℕ) (masses : Option (List ℚ)) : ℚ :=
  let sampleP : List Vec3 → Vec3 := fun sample =>
    match masses with
    | some ms => (List.zipWith smulV ms sample).sum
    | none => sample.sum
  listMean (List.zipWith
    (fun s_init s_pred =>
      sumSq (sampleP s_pred - sampleP s_init) /
        max (sumSq (sampleP s_init)) (1 / 1000000))
    (chunkExact batch_size n_nodes vel_init)
    (chunkExact batch_size n_nodes vel_pred))

/-! ## Helper lemmas -/

/-- When the flat row count matches, the batched momentum is the 3-axis
momentum of the chunked rows. -/
theorem batched_ok (vel : List Vec3) (n b : ℕ) (ms : Option (List ℚ))
    (h : vel.length = b * n) :
    compute_linear_momentum_batched vel n b ms =
      .ok (compute_linear_momentum_dim3 (chunkExact b n vel) ms) := by
  simp [compute_linear_momentum_batched, view3, h, Except.map]

/-- The 3-axis momentum is the per-sample map of the 2-axis momentum. -/
theorem dim3_eq_map (g : List (List Vec3)) (ms : Option (List ℚ)) :
    compute_linear_momentum_dim3 g ms =
      g.map (fun s => compute_linear_momentum_dim2 s ms) := by
  cases ms <;> rfl

/-! ## Claim C4 — warmup factor (corrected: the factor can be negative) -/

/-- Claim C4, counterexample to the claim as stated: with `warmup_epochs = 2`,
setting `current_epoch` to `-2` (which `set_epoch` accepts, performing no
validation) makes `get_warmup_factor()` return `-1`, outside the claimed
interval `[0, 1]`. -/
theorem warmup_factor_can_be_negative :
    ((⟨1/10, 2, 10, 0⟩ : PhysicsInformedLoss).set_epoch (-2)).get_warmup_factor
      < 0 := by
  have h2 : ¬ ((2:ℚ) ≤ 0) := by norm_num
  simp only [PhysicsInformedLoss.set_epoch, PhysicsInformedLoss.get_warmup_factor,
    h2, if_false]
  have : ((-2 : ℚ)) / 2 = -1 := by norm_num
  rw [this]
  have : min (1:ℚ) (-1) = -1 := by
    apply min_eq_right; norm_num
  rw [this]; norm_num

/-- Claim C4 (amended): after `set_epoch` with arbitrary epochs `e1 ≤ e2`,
the warmup factor is non-decreasing, at most 1, non-negative whenever the
epoch is non-negative, equal to 1 whenever `current_epoch ≥ warmup_epochs`,
and equal to 1 whenever `warmup_epochs ≤ 0`.  (The unconditional lower bound
0 of the original claim fails for negative epochs, which `set_epoch` admits;
see the counterexample.) -/
theorem warmup_factor_monotone_bounded (pil : PhysicsInformedLoss)
    (e1 e2 : ℚ) (h12 : e1 ≤ e2) :
    (pil.set_epoch e1).get_warmup_factor ≤ (pil.set_epoch e2).get_warmup_factor
    ∧ (pil.set_epoch e1).get_warmup_factor ≤ 1
    ∧ (0 ≤ e1 → 0 ≤ (pil.set_epoch e1).get_warmup_factor)
    ∧ (pil.warmup_epochs ≤ e1 → (pil.set_epoch e1).get_warmup_factor = 1)
    ∧ (pil.warmup_epochs ≤ 0 → (pil.set_epoch e1).get_warmup_factor = 1) := by
  simp only [PhysicsInformedLoss.set_epoch, PhysicsInformedLoss.get_warmup_factor]
  by_cases hw : pil.warmup_epochs ≤ 0
  · simp [hw]
  · have hw' : 0 < pil.warmup_epochs := lt_of_not_le hw
    simp only [hw, if_false]
    refine ⟨?_, min_le_left _ _, ?_, ?_, fun h => h.elim⟩
    · exact min_le_min le_rfl ((div_le_div_iff_of_pos_right hw').mpr h12)
    · intro he
      exact le_min (by norm_num) (div_nonneg he hw'.le)
    · intro h
      exact min_eq_left ((one_le_div hw').mpr h)

/-- Claim C4, witness: a concrete instance with `warmup_epochs = 2` checked at
epochs 1 and 3, and one with warmup disabled (`warmup_epochs = 0`). -/
theorem warmup_factor_monotone_bounded_witness :
    (((⟨1/10, 2, 10, 0⟩ : PhysicsInformedLoss).set_epoch 1).get_warmup_factor ≤
      ((⟨1/10, 2, 10, 0⟩ : PhysicsInformedLoss).set_epoch 3).get_warmup_factor)
    ∧ ((⟨1/10, 2, 10, 0⟩ : PhysicsInformedLoss).set_epoch 1).get_warmup_factor ≤ 1
    ∧ 0 ≤ ((⟨1/10, 2, 10, 0⟩ : PhysicsInformedLoss).set_epoch 1).get_warmup_factor
    ∧ ((⟨1/10, 2, 10, 0⟩ : PhysicsInformedLoss).set_epoch 3).get_warmup_factor = 1
    ∧ ((⟨1/10, 0, 10, 0⟩ : PhysicsInformedLoss).set_epoch 5).get_warmup_factor = 1 := by
  have h1 := warmup_factor_monotone_bounded ⟨1/10, 2, 10, 0⟩ 1 3 (by norm_num)
  have h3 := warmup_factor_monotone_bounded ⟨1/10, 2, 10, 0⟩ 3 3 le_rfl
  have h0 := warmup_factor_monotone_bounded ⟨1/10, 0, 10, 0⟩ 5 5 le_rfl
  exact ⟨h1.1, h1.2.1, h1.2.2.1 (by norm_num),
    h3.2.2.2.1 (by norm_num), h0.2.2.2.2 le_rfl⟩

/-! ## Claim C5 — disabled momentum term -/

/-- Claim C5: whenever `lambda_momentum ≤ 0`, `compute_physics_losses` returns
total `0.0` and a breakdown whose only keys are `total_physics` and
`warmup_factor` (no `momentum` / `momentum_clamped` entries). -/
theorem lambda_nonpos_skips_momentum (pil : PhysicsInformedLoss)
    (vi vp : List Vec3) (n b : ℕ) (ms : Option (List ℚ))
    (hl : pil.lambda_momentum ≤ 0) :
    ∃ bd, pil.compute_physics_losses vi vp n b ms = .ok (0, bd)
      ∧ bd.map Prod.fst = ["total_physics", "warmup_factor"] := by
  refine ⟨[("total_physics", 0), ("warmup_factor", pil.get_warmup_factor)], ?_, by simp⟩
  simp [PhysicsInformedLoss.compute_physics_losses, not_lt.mpr hl]

/-- Claim C5, witness: a concrete wrapper with `lambda_momentum = 0`. -/
theorem lambda_nonpos_skips_momentum_witness :
    ∃ bd, (⟨0, 5, 10, 3⟩ : PhysicsInformedLoss).compute_physics_losses
        [((1:ℚ),0,0)] [((0:ℚ),1,0)] 1 1 none = .ok (0, bd)
      ∧ bd.map Prod.fst = ["total_physics", "warmup_factor"] :=
  lambda_nonpos_skips_momentum ⟨0, 5, 10, 3⟩ [((1:ℚ),0,0)] [((0:ℚ),1,0)] 1 1 none
    le_rfl

/-! ## Claim C6 — reshape error -/

/-- Claim C6: for well-formed masses, `compute_linear_momentum_batched` raises
`ShapeMismatch` exactly when the flat row count differs from
`batch_size * n_nodes`, and the error reaches the caller
(`momentum_conservation_loss`) unmodified. -/
theorem batched_shape_mismatch_iff (vel : List Vec3) (n b : ℕ)
    (ms : Option (List ℚ)) (hm : MassesOk ms n) :
    (compute_linear_momentum_batched vel n b ms = .error .ShapeMismatch
      ↔ vel.length ≠ b * n)
    ∧ (∀ vp, vel.length ≠ b * n →
        momentum_conservation_loss vel vp n b ms = .error .ShapeMismatch) := by
  constructor
  · by_cases h : vel.length = b * n <;>
      simp [compute_linear_momentum_batched, view3, h, Except.map]
  · intro vp h
    simp [momentum_conservation_loss, compute_linear_momentum_batched, view3, h,
      Except.map, bind, Except.bind]

/-- Claim C6, witness: one row cannot be viewed as `1 × 2` rows. -/
theorem batched_shape_mismatch_iff_witness :
    (compute_linear_momentum_batched [((1:ℚ),0,0)] 2 1 none = .error .ShapeMismatch
      ↔ [((1:ℚ),0,0)].length ≠ 1 * 2)
    ∧ (∀ vp, [((1:ℚ),0,0)].length ≠ 1 * 2 →
        momentum_conservation_loss [((1:ℚ),0,0)] vp 2 1 none =
          .error .ShapeMismatch) :=
  batched_shape_mismatch_iff [((1:ℚ),0,0)] 2 1 none (by simp [MassesOk])

/-! ## Claim C7 — batched momentum vs pre-grouped momentum -/

/-- Flattening a uniformly-shaped `(b, n, 3)` array yields `b * n` rows. -/
theorem flatten_length_uniform (n : ℕ) (g : List (List Vec3))
    (h : ∀ s ∈ g, s.length = n) : g.flatten.length = g.length * n := by
  induction g with
  | nil => simp
  | cons s gs ih =>
    simp only [List.flatten_cons, List.length_append, List.length_cons]
    rw [h s (by simp), ih (fun t ht => h t (by simp [ht]))]
    ring

/-- Chunking undoes flattening on a uniformly-shaped grouped array. -/
theorem chunkExact_flatten (n : ℕ) (g : List (List Vec3))
    (h : ∀ s ∈ g, s.length = n) : chunkExact g.length n g.flatten = g := by
  induction g with
  | nil => rfl
  | cons s gs ih =>
    simp only [List.length_cons, List.flatten_cons, chunkExact]
    rw [List.take_left' (h s (by simp)), List.drop_left' (h s (by simp))]
    rw [ih (fun t ht => h t (by simp [ht]))]

/-- Claim C7: on the flattening of a `(b, n, 3)` grouped array,
`compute_linear_momentum_batched` agrees elementwise with the 3-axis
`compute_linear_momentum` on the grouped array itself. -/
theorem batched_matches_grouped (g : List (List Vec3)) (n b : ℕ)
    (ms : Option (List ℚ)) (hb : g.length = b) (hn : ∀ s ∈ g, s.length = n) :
    compute_linear_momentum_batched g.flatten n b ms =
      .ok (compute_linear_momentum_dim3 g ms) := by
  have hlen : g.flatten.length = b * n := by
    rw [flatten_length_uniform n g hn, hb]
  rw [batched_ok _ _ _ _ hlen, ← hb, chunkExact_flatten n g hn]

/-- Claim C7, witness: two samples of one particle each. -/
theorem batched_matches_grouped_witness :
    compute_linear_momentum_batched
        ([[((1:ℚ),0,0)], [((0:ℚ),1,0)]] : List (List Vec3)).flatten 1 2 none =
      .ok (compute_linear_momentum_dim3 [[((1:ℚ),0,0)], [((0:ℚ),1,0)]] none) :=
  batched_matches_grouped [[((1:ℚ),0,0)], [((0:ℚ),1,0)]] 1 2 none (by simp)
    (by simp)

/-! ## Claim C8 — identical velocities give zero loss -/

/-- Dividing a list of zeros elementwise by any list sums to zero. -/
theorem zip_replicate_zero_div (k : ℕ) (nrm : List ℚ) :
    (List.zipWith (fun l m => l / m) (List.replicate k 0) nrm).sum = 0 := by
  induction k generalizing nrm with
  | zero => simp
  | succ k ih =>
    cases nrm with
    | nil => simp
    | cons m nrm =>
      rw [List.replicate_succ, List.zipWith_cons_cons, List.sum_cons, ih,
        zero_div, add_zero]

/-- Normalized deviations of a momentum list against itself sum to zero. -/
theorem zip_self_zero (P : List Vec3) (nrm : List ℚ) :
    (List.zipWith (fun l m => l / m)
      (List.zipWith (fun pi pp => sumSq (pp - pi)) P P) nrm).sum = 0 := by
  have h : List.zipWith (fun pi pp => sumSq (pp - pi)) P P =
      List.replicate P.length 0 := by
    induction P with
    | nil => rfl
    | cons p P ih => simp [ih, sumSq, sub_self, List.replicate_succ]
  rw [h]
  exact zip_replicate_zero_div P.length nrm

/-- Claim C8: when the predicted velocities equal the initial ones (and the
reshape succeeds), `momentum_conservation_loss` returns exactly 0. -/
theorem equal_velocities_zero_loss (vi vp : List Vec3) (n b : ℕ)
    (ms : Option (List ℚ)) (hvp : vp = vi) (hlen : vi.length = b * n) :
    momentum_conservation_loss vi vp n b ms = .ok 0 := by
  subst hvp
  simp only [momentum_conservation_loss, batched_ok vp n b ms hlen, bind,
    Except.bind, pure, Except.pure, listMean, zip_self_zero, zero_div]

/-- Claim C8, witness: the spec's concrete scenario with two samples whose
momenta are `(1,0,0)` and `(0,2,0)`. -/
theorem equal_velocities_zero_loss_witness :
    momentum_conservation_loss [((1:ℚ),0,0), (0,2,0)] [((1:ℚ),0,0), (0,2,0)]
      1 2 none = .ok 0 :=
  equal_velocities_zero_loss [((1:ℚ),0,0), (0,2,0)] [((1:ℚ),0,0), (0,2,0)]
    1 2 none rfl (by simp)

/-! ## Claim C9 — absent masses behave as unit masses -/

/-- Weighting by an all-ones mass list of matching length is the identity. -/
theorem zipWith_replicate_one (s : List Vec3) (n : ℕ) (h : s.length = n) :
    List.zipWith smulV (List.replicate n 1) s = s := by
  induction s generalizing n with
  | nil => simp
  | cons v s ih =>
    cases n with
    | zero => simp at h
    | succ m =>
      simp only [List.replicate_succ, List.zipWith_cons_cons]
      rw [ih m (by simpa using h)]
      simp [smulV]

/-- Claim C9: on both accepted shapes, `compute_linear_momentum` with
`masses = None` equals the call with an explicit all-ones mass array of the
matching per-particle shape. -/
theorem none_masses_eq_unit_masses (n : ℕ) :
    (∀ vel : List (List Vec3), (∀ s ∈ vel, s.length = n) →
      compute_linear_momentum_dim3 vel (some (List.replicate n 1)) =
        compute_linear_momentum_dim3 vel none)
    ∧ (∀ vel : List Vec3,
        compute_linear_momentum_dim2 vel (some (List.replicate vel.length 1)) =
          compute_linear_momentum_dim2 vel none) := by
  constructor
  · intro vel h
    simp only [compute_linear_momentum_dim3]
    exact List.map_congr_left
      (fun s hs => by rw [zipWith_replicate_one s n (h s hs)])
  · intro vel
    simp only [compute_linear_momentum_dim2]
    rw [zipWith_replicate_one vel vel.length rfl]

/-- Claim C9, witness: a one-sample 3-axis array and a one-row 2-axis array. -/
theorem none_masses_eq_unit_masses_witness :
    (compute_linear_momentum_dim3 [[((1:ℚ),2,3)]] (some (List.replicate 1 1)) =
      compute_linear_momentum_dim3 [[((1:ℚ),2,3)]] none)
    ∧ (compute_linear_momentum_dim2 [((1:ℚ),2,3)]
          (some (List.replicate [((1:ℚ),2,3)].length 1)) =
        compute_linear_momentum_dim2 [((1:ℚ),2,3)] none) :=
  ⟨(none_masses_eq_unit_masses 1).1 [[((1:ℚ),2,3)]] (by simp),
   (none_masses_eq_unit_masses 1).2 [((1:ℚ),2,3)]⟩

/-! ## Claims C2, C3, C10 — the active momentum branch of the wrapper -/

/-- Inversion of the `lambda_momentum > 0` branch of `compute_physics_losses`:
a normal return exposes the raw loss, the clamped loss, the total, and the
breakdown in insertion order. -/
theorem compute_physics_losses_pos_inv (pil : PhysicsInformedLoss)
    (vi vp : List Vec3) (n b : ℕ) (ms : Option (List ℚ)) (t : ℚ)
    (bd : List (String × ℚ)) (hl : 0 < pil.lambda_momentum)
    (hc : pil.compute_physics_losses vi vp n b ms = .ok (t, bd)) :
    ∃ raw, momentum_conservation_loss vi vp n b ms = .ok raw
      ∧ t = pil.lambda_momentum *
            min raw (pil.max_physics_loss / max pil.lambda_momentum (1 / 1000000)) *
            pil.get_warmup_factor
      ∧ bd = [("momentum", raw),
              ("momentum_clamped",
                min raw (pil.max_physics_loss / max pil.lambda_momentum (1 / 1000000))),
              ("total_physics", t),
              ("warmup_factor", pil.get_warmup_factor)] := by
  unfold PhysicsInformedLoss.compute_physics_losses at hc
  rw [if_pos hl] at hc
  cases hm : momentum_conservation_loss vi vp n b ms with
  | error e =>
    rw [hm] at hc
    simp at hc
  | ok raw =>
    rw [hm] at hc
    simp only [Except.ok.injEq, Prod.mk.injEq] at hc
    obtain ⟨ht, hbd⟩ := hc
    subst ht
    subst hbd
    exact ⟨raw, rfl, rfl, rfl⟩

/-- Claim C2: with an active momentum term and a positive clamp ceiling, the
weighted clamped loss recorded in the breakdown never exceeds
`max_physics_loss`, however large the raw loss is. -/
theorem clamped_momentum_bounded_by_max (pil : PhysicsInformedLoss)
    (vi vp : List Vec3) (n b : ℕ) (ms : Option (List ℚ)) (t : ℚ)
    (bd : List (String × ℚ)) (hl : 0 < pil.lambda_momentum)
    (hmax : 0 < pil.max_physics_loss)
    (hc : pil.compute_physics_losses vi vp n b ms = .ok (t, bd)) :
    ∃ c, bd.lookup "momentum_clamped" = some c
      ∧ pil.lambda_momentum * c ≤ pil.max_physics_loss := by
  obtain ⟨raw, _, _, hbd⟩ :=
    compute_physics_losses_pos_inv pil vi vp n b ms t bd hl hc
  subst hbd
  refine ⟨min raw (pil.max_physics_loss / max pil.lambda_momentum (1 / 1000000)),
    by simp [List.lookup], ?_⟩
  have hdpos : (0:ℚ) < max pil.lambda_momentum (1 / 1000000) :=
    lt_of_lt_of_le (by norm_num) (le_max_right _ _)
  have h1 : pil.lambda_momentum *
      min raw (pil.max_physics_loss / max pil.lambda_momentum (1 / 1000000))
      ≤ pil.lambda_momentum *
        (pil.max_physics_loss / max pil.lambda_momentum (1 / 1000000)) :=
    mul_le_mul_of_nonneg_left (min_le_right _ _) hl.le
  have h2 : pil.lambda_momentum *
      (pil.max_physics_loss / max pil.lambda_momentum (1 / 1000000)) =
      pil.max_physics_loss *
        (pil.lambda_momentum / max pil.lambda_momentum (1 / 1000000)) := by
    ring
  have h3 : pil.lambda_momentum / max pil.lambda_momentum (1 / 1000000) ≤ 1 :=
    (div_le_one hdpos).mpr (le_max_left _ _)
  have h4 : pil.max_physics_loss *
      (pil.lambda_momentum / max pil.lambda_momentum (1 / 1000000))
      ≤ pil.max_physics_loss := by
    calc pil.max_physics_loss *
        (pil.lambda_momentum / max pil.lambda_momentum (1 / 1000000))
        ≤ pil.max_physics_loss * 1 := mul_le_mul_of_nonneg_left h3 hmax.le
      _ = pil.max_physics_loss := mul_one _
  linarith

/-- Claim C2, witness: weight 1, ceiling 10, equal one-particle velocities. -/
theorem clamped_momentum_bounded_by_max_witness :
    ∃ c, List.lookup "momentum_clamped"
        [("momentum", (0:ℚ)), ("momentum_clamped", 0), ("total_physics", 0),
         ("warmup_factor", 1)] = some c
      ∧ (⟨1, 0, 10, 0⟩ : PhysicsInformedLoss).lambda_momentum * c ≤
          (⟨1, 0, 10, 0⟩ : PhysicsInformedLoss).max_physics_loss :=
  clamped_momentum_bounded_by_max ⟨1, 0, 10, 0⟩ [((1:ℚ),0,0)] [((1:ℚ),0,0)]
    1 1 none 0 _ (show (0:ℚ) < 1 by norm_num) (show (0:ℚ) < 10 by norm_num)
    (by simp [PhysicsInformedLoss.compute_physics_losses,
      PhysicsInformedLoss.get_warmup_factor, momentum_conservation_loss,
      compute_linear_momentum_batched, view3, chunkExact,
      compute_linear_momentum_dim3, bind, Except.bind, Except.map, listMean,
      sumSq, pure, Except.pure] <;> positivity)

/-- Claim C3: with an active momentum term, the returned total equals
`lambda_momentum * momentum_loss_clamped * warmup_factor`, where the clamped
value is `momentum_conservation_loss` clamped at
`max_physics_loss / max(lambda_momentum, 1e-6)` and the warmup factor is
`get_warmup_factor()` at the current epoch. -/
theorem total_physics_loss_formula (pil : PhysicsInformedLoss)
    (vi vp : List Vec3) (n b : ℕ) (ms : Option (List ℚ)) (t : ℚ)
    (bd : List (String × ℚ)) (hl : 0 < pil.lambda_momentum)
    (hc : pil.compute_physics_losses vi vp n b ms = .ok (t, bd)) :
    ∃ raw, momentum_conservation_loss vi vp n b ms = .ok raw
      ∧ bd.lookup "momentum_clamped" =
          some (min raw (pil.max_physics_loss / max pil.lambda_momentum (1 / 1000000)))
      ∧ t = pil.lambda_momentum *
            min raw (pil.max_physics_loss / max pil.lambda_momentum (1 / 1000000)) *
            pil.get_warmup_factor := by
  obtain ⟨raw, hraw, ht, hbd⟩ :=
    compute_physics_losses_pos_inv pil vi vp n b ms t bd hl hc
  subst hbd
  exact ⟨raw, hraw, by simp [List.lookup], ht⟩

/-- Claim C3, witness: weight 1, ceiling 10, equal one-particle velocities,
total 0. -/
theorem total_physics_loss_formula_witness :
    ∃ raw, momentum_conservation_loss [((1:ℚ),0,0)] [((1:ℚ),0,0)] 1 1 none =
        .ok raw
      ∧ List.lookup "momentum_clamped"
          [("momentum", (0:ℚ)), ("momentum_clamped", 0), ("total_physics", 0),
           ("warmup_factor", 1)] =
          some (min raw ((⟨1, 0, 10, 0⟩ : PhysicsInformedLoss).max_physics_loss /
            max (⟨1, 0, 10, 0⟩ : PhysicsInformedLoss).lambda_momentum (1 / 1000000)))
      ∧ (0:ℚ) = (⟨1, 0, 10, 0⟩ : PhysicsInformedLoss).lambda_momentum *
            min raw ((⟨1, 0, 10, 0⟩ : PhysicsInformedLoss).max_physics_loss /
              max (⟨1, 0, 10, 0⟩ : PhysicsInformedLoss).lambda_momentum (1 / 1000000)) *
            (⟨1, 0, 10, 0⟩ : PhysicsInformedLoss).get_warmup_factor :=
  total_physics_loss_formula ⟨1, 0, 10, 0⟩ [((1:ℚ),0,0)] [((1:ℚ),0,0)]
    1 1 none 0 _ (show (0:ℚ) < 1 by norm_num)
    (by simp [PhysicsInformedLoss.compute_physics_losses,
      PhysicsInformedLoss.get_warmup_factor, momentum_conservation_loss,
      compute_linear_momentum_batched, view3, chunkExact,
      compute_linear_momentum_dim3, bind, Except.bind, Except.map, listMean,
      sumSq, pure, Except.pure] <;> positivity)

/-- Claim C10: the clamp is upper-only — the logged clamped value never
exceeds the logged raw value, and they coincide whenever the raw value is at
most the ceiling `max_physics_loss / max(lambda_momentum, 1e-6)`. -/
theorem clamp_upper_only (pil : PhysicsInformedLoss)
    (vi vp : List Vec3) (n b : ℕ) (ms : Option (List ℚ)) (t : ℚ)
    (bd : List (String × ℚ)) (hl : 0 < pil.lambda_momentum)
    (hc : pil.compute_physics_losses vi vp n b ms = .ok (t, bd)) :
    ∃ raw c, bd.lookup "momentum" = some raw
      ∧ bd.lookup "momentum_clamped" = some c
      ∧ c ≤ raw
      ∧ (raw ≤ pil.max_physics_loss / max pil.lambda_momentum (1 / 1000000) →
          c = raw) := by
  obtain ⟨raw, _, _, hbd⟩ :=
    compute_physics_losses_pos_inv pil vi vp n b ms t bd hl hc
  subst hbd
  exact ⟨raw, _, by simp [List.lookup], by simp [List.lookup],
    min_le_left _ _, fun h => min_eq_left h⟩

/-- Claim C10, witness: weight 1, ceiling 10, equal one-particle
velocities. -/
theorem clamp_upper_only_witness :
    ∃ raw c, List.lookup "momentum"
        [("momentum", (0:ℚ)), ("momentum_clamped", 0), ("total_physics", 0),
         ("warmup_factor", 1)] = some raw
      ∧ List.lookup "momentum_clamped"
          [("momentum", (0:ℚ)), ("momentum_clamped", 0), ("total_physics", 0),
           ("warmup_factor", 1)] = some c
      ∧ c ≤ raw
      ∧ (raw ≤ (⟨1, 0, 10, 0⟩ : PhysicsInformedLoss).max_physics_loss /
            max (⟨1, 0, 10, 0⟩ : PhysicsInformedLoss).lambda_momentum (1 / 1000000) →
          c = raw) :=
  clamp_upper_only ⟨1, 0, 10, 0⟩ [((1:ℚ),0,0)] [((1:ℚ),0,0)] 1 1 none 0 _
    (show (0:ℚ) < 1 by norm_num)
    (by simp [PhysicsInformedLoss.compute_physics_losses,
      PhysicsInformedLoss.get_warmup_factor, momentum_conservation_loss,
      compute_linear_momentum_batched, view3, chunkExact,
      compute_linear_momentum_dim3, bind, Except.bind, Except.map, listMean,
      sumSq, pure, Except.pure] <;> positivity)

/-! ## Claim C1 — the loss formula -/

/-- Fusing the per-sample pipeline: deviations of mapped momenta divided by
mapped norms equal the directly-computed per-sample quotients. -/
theorem zipWith_div_map_fuse {α β : Type} (g : α → β) (f2 : β → β → ℚ)
    (h : β → ℚ) :
    ∀ (as bs : List α),
      List.zipWith (fun l m => l / m)
        (List.zipWith f2 (as.map g) (bs.map g))
        ((as.map g).map h)
      = List.zipWith (fun x y => f2 (g x) (g y) / h (g x)) as bs := by
  intro as
  induction as with
  | nil => intro bs; simp
  | cons a as ih =>
    intro bs
    cases bs with
    | nil => simp
    | cons b bs =>
      simp only [List.map_cons, List.zipWith_cons_cons]
      rw [ih]

/-- Claim C1: whenever both velocity arrays reshape successfully,
`momentum_conservation_loss` returns the mean over the batch of
`sum((P_pred - P_init)^2)` divided per sample by `max(sum(P_init^2), 1e-6)`,
with `P` the per-sample (mass-weighted) momentum sum. -/
theorem momentum_loss_matches_spec_formula (vi vp : List Vec3) (n b : ℕ)
    (ms : Option (List ℚ)) (hi : vi.length = b * n) (hp : vp.length = b * n) :
    momentum_conservation_loss vi vp n b ms =
      .ok (momentum_conservation_loss_spec vi vp n b ms) := by
  cases ms with
  | none =>
    simp only [momentum_conservation_loss, batched_ok vi n b none hi,
      batched_ok vp n b none hp, bind, Except.bind, pure, Except.pure,
      dim3_eq_map, compute_linear_momentum_dim2,
      momentum_conservation_loss_spec, Except.ok.injEq]
    rw [zipWith_div_map_fuse (fun s : List Vec3 => s.sum)
      (fun pi pp => sumSq (pp - pi)) (fun p => max (sumSq p) (1 / 1000000))]
  | some m =>
    simp only [momentum_conservation_loss, batched_ok vi n b (some m) hi,
      batched_ok vp n b (some m) hp, bind, Except.bind, pure, Except.pure,
      dim3_eq_map, compute_linear_momentum_dim2,
      momentum_conservation_loss_spec, Except.ok.injEq]
    rw [zipWith_div_map_fuse (fun s : List Vec3 => (List.zipWith smulV m s).sum)
      (fun pi pp => sumSq (pp - pi)) (fun p => max (sumSq p) (1 / 1000000))]

/-- Claim C1, witness: two one-particle samples with a perturbed
prediction. -/
theorem momentum_loss_matches_spec_formula_witness :
    momentum_conservation_loss [((1:ℚ),0,0), (0,2,0)] [((2:ℚ),0,0), (0,2,0)]
      1 2 none =
      .ok (momentum_conservation_loss_spec [((1:ℚ),0,0), (0,2,0)]
        [((2:ℚ),0,0), (0,2,0)] 1 2 none) :=
  momentum_loss_matches_spec_formula [((1:ℚ),0,0), (0,2,0)]
    [((2:ℚ),0,0), (0,2,0)] 1 2 none (by simp) (by simp)
